import Mathlib

/-!
Verification development for the armory lending-vault analytics repository.

The Python sources are shallowly embedded over ℚ (Python floats are modelled by
exact rationals; `round(x, 3)` is modelled by decimal round-half-to-even at three
places).  Hex payload strings are modelled as `List Char`.  Python dicts holding
the four kink-IRM keys are modelled by `IRMDict` (an `Option ℚ` per key plus a
flag recording whether any other key is present, which only matters for Python
truthiness).  Each definition's doc comment names the source location it embeds.
-/

namespace Armory

/-- Protocol constant: seconds per 365-day year (src/utils.py line 9). -/
def SECONDS_PER_YEAR : ℕ := 31536000

/-- Protocol constant: fixed-point scale of per-second rates (src/utils.py line 10). -/
def SPY_SCALE : ℚ := 10 ^ 27

/-- Protocol constant: 2^32 - 1 (src/utils.py line 11). -/
def UINT32_MAX : ℕ := 4294967295

/-- Python `round(x, 3)`-style integer rounding: round half to even. -/
def roundHalfEven (q : ℚ) : ℤ :=
  if q - ⌊q⌋ = 1 / 2 then (if 2 ∣ ⌊q⌋ then ⌊q⌋ else ⌊q⌋ + 1) else round q

/-- Python `round(x, 3)`: round to three decimal places, half to even. -/
def round3 (q : ℚ) : ℚ := (roundHalfEven (q * 1000) : ℚ) / 1000

/-- `to_apy` (src/utils.py lines 103-115, identical in src/src/vault.py lines 79-83):
per-second scaled rate to annualized yield, with the rate-zero short-circuit.
The rate is an integer (a chunk value, or a sum/product of chunk values, which can
be negative through `UINT32_MAX - kink_raw`).  The ℚ embedding totalizes the float
power: CPython instead raises `OverflowError` when `(1 + r/10^27) ** 31536000`
exceeds the float range (rates roughly above 2.3e22), so no theorem in this file
may read a successful `to_apy` application as evidence that the program does not
crash, except where the rate is 0 and the short-circuit avoids the power. -/
def to_apy (rate_per_sec : ℤ) : ℚ :=
  let r_decimal : ℚ := (rate_per_sec : ℚ) / SPY_SCALE
  if r_decimal = 0 then 0 else (1 + r_decimal) ^ SECONDS_PER_YEAR - 1

/-- The rate interpolator, positional form (src/utils.py lines 117-145; the body is
verbatim the same as src/src/utils.py lines 23-42): clamp utilization to [0,1],
piecewise-linear borrow rate through (0, base), (kink, rate_at_kink), (1, max),
supply rate = utilization * 0.9 * borrow rate. -/
def calculate_rates (utilization kink base_rate rate_at_kink max_rate : ℚ) : ℚ × ℚ :=
  let u1 : ℚ := if utilization < 0 then 0 else utilization
  let u2 : ℚ := if u1 > 1 then 1 else u1
  let borrow_rate : ℚ :=
    if u2 ≤ kink then
      if kink > 0 then base_rate + (rate_at_kink - base_rate) / kink * u2
      else base_rate
    else
      if kink < 1 then rate_at_kink + (max_rate - rate_at_kink) / (1 - kink) * (u2 - kink)
      else rate_at_kink
  (borrow_rate, u2 * (9 / 10) * borrow_rate)

/-- A Python dict holding (a subset of) the four kink-IRM keys, plus a flag for
whether any further key (such as `"error"`) is present, which matters only for
Python truthiness of the dict. -/
structure IRMDict where
  kinkPercent : Option ℚ
  baseRateApy : Option ℚ
  rateAtKink : Option ℚ
  maximumRate : Option ℚ
  extra : Bool
deriving DecidableEq

/-- Python truthiness of the dict: it is nonempty. -/
def IRMDict.nonempty (d : IRMDict) : Bool :=
  d.kinkPercent.isSome || d.baseRateApy.isSome || d.rateAtKink.isSome ||
    d.maximumRate.isSome || d.extra

/-- The empty dict `{}`. -/
def IRMDict.empty : IRMDict := ⟨none, none, none, none, false⟩

/-- The rate interpolator, dict form (src/src/utils.py lines 10-21 followed by the
shared body of lines 23-42): read the four keys with default 0, normalize the kink
to 0-1 only when it exceeds 1, then interpolate. -/
def calculate_rates_dict (utilization : ℚ) (irm : IRMDict) : ℚ × ℚ :=
  let kink0 : ℚ := irm.kinkPercent.getD 0
  let kink : ℚ := if kink0 > 1 then kink0 / 100 else kink0
  calculate_rates utilization kink (irm.baseRateApy.getD 0) (irm.rateAtKink.getD 0)
    (irm.maximumRate.getD 0)

/-- `calculate_yield_with_LTV` (src/src/utils.py lines 47-48). -/
def calculate_yield_with_LTV (supply_rate borrow_rate borrowLTV : ℚ) : ℚ :=
  (supply_rate - borrow_rate * borrowLTV) / (1 - borrowLTV)

/-- `compute_strategy_yield` (src/src/utils.py lines 53-57). -/
def compute_strategy_yield (coll_supply_apy coll_native_yield debt_borrow_apy ltv : ℚ) : ℚ :=
  calculate_yield_with_LTV (coll_supply_apy + coll_native_yield) debt_borrow_apy ltv

/-! ### Hex payload parsing (the rate curve decoder) -/

/-- Value of one hex digit character, `none` on a non-hex-digit character
(Python `int(chunk, 16)` raises `ValueError` on such characters). -/
def hexDigitVal (c : Char) : Option ℕ :=
  if '0' ≤ c ∧ c ≤ '9' then some (c.toNat - 48)
  else if 'a' ≤ c ∧ c ≤ 'f' then some (c.toNat - 87)
  else if 'A' ≤ c ∧ c ≤ 'F' then some (c.toNat - 55)
  else none

/-- One step of big-endian hex accumulation; `none` is absorbing. -/
def parseHexAux (acc : Option ℕ) (c : Char) : Option ℕ :=
  match acc, hexDigitVal c with
  | some a, some d => some (16 * a + d)
  | _, _ => none

/-- Python `int(s, 16)` on a chunk restricted to plain hex digits: `none` (a
`ValueError`) when the chunk is empty or holds a non-hex-digit character. -/
def hexChunkNat (l : List Char) : Option ℕ :=
  if l.isEmpty then none else l.foldl parseHexAux (some 0)

/-- Lowercase hex digit character of a value below 16. -/
def natToHexChar (d : ℕ) : Char :=
  if d < 10 then Char.ofNat (48 + d) else Char.ofNat (87 + d)

/-- Big-endian fixed-width hex rendering of `n % 16 ^ len`. -/
def encodeHexLen : ℕ → ℕ → List Char
  | 0, _ => []
  | len + 1, n => encodeHexLen len (n / 16) ++ [natToHexChar (n % 16)]

/-- A 64-hex-character (32-byte) big-endian word. -/
def encodeHex64 (n : ℕ) : List Char := encodeHexLen 64 n

/-- The synthetic 4x64-hex-character payload of the spec's decoder round trip. -/
def encode4 (b s1 s2 k : ℕ) : List Char :=
  encodeHex64 b ++ (encodeHex64 s1 ++ (encodeHex64 s2 ++ encodeHex64 k))

/-- Strip an optional `0x` at the start (src/utils.py lines 70-71). -/
def strip0x (l : List Char) : List Char :=
  if l.take 2 = ['0', 'x'] then l.drop 2 else l

/-- `hex_str[i*64 : (i+1)*64]` (src/utils.py line 76). -/
def chunk (s : List Char) (i : ℕ) : List Char := (s.drop (i * 64)).take 64

/-- The four chunk conversions of src/utils.py line 76; `none` models the
`ValueError` Python raises when a chunk holds a non-hex character. -/
def parse4 (s : List Char) : Option (ℕ × ℕ × ℕ × ℕ) :=
  match hexChunkNat (chunk s 0), hexChunkNat (chunk s 1),
      hexChunkNat (chunk s 2), hexChunkNat (chunk s 3) with
  | some a, some b, some c, some d => some (a, b, c, d)
  | _, _, _, _ => none

/-- Decoded kink-model record (the four-key dict a successful decode returns). -/
structure KinkOut where
  kinkPercent : ℚ
  baseRateApy : ℚ
  rateAtKink : ℚ
  maximumRate : ℚ
deriving DecidableEq

/-- Outcome of `decode_kink_params`: the explicit insufficient-length error dict,
an uncaught `ValueError` from `int(chunk, 16)`, or the decoded record. -/
inductive DecodeOutcome where
  | insufficientData : DecodeOutcome
  | valueError : DecodeOutcome
  | ok : KinkOut → DecodeOutcome
deriving DecidableEq

namespace RootUtils

/-- `decode_kink_params` (src/utils.py lines 69-101): strip `0x`, fail when fewer
than 64*4 characters remain, parse four 64-character chunks, and return the
full-precision record with `kinkPercent` the 0-1 kink fraction and the three rates
as unscaled APY fractions (no multiplication by 100, no rounding). -/
def decode_kink_params (hex_str : List Char) : DecodeOutcome :=
  let s := strip0x hex_str
  if s.length < 64 * 4 then .insufficientData
  else
    match parse4 s with
    | none => .valueError
    | some (base_rate_raw, slope1_raw, slope2_raw, kink_raw) =>
      let r_kink : ℤ := (base_rate_raw : ℤ) + slope1_raw * kink_raw
      let r_100 : ℤ := r_kink + slope2_raw * ((UINT32_MAX : ℤ) - kink_raw)
      .ok ⟨(kink_raw : ℚ) / (UINT32_MAX : ℚ), to_apy (base_rate_raw : ℤ),
        to_apy r_kink, to_apy r_100⟩

end RootUtils

namespace SrcVault

/-- `decode_kink_params` (src/src/vault.py lines 86-110): same stripping, length
check and chunk parse as the root variant, but the record is on the 0-100 percent
scale and every field is rounded to 3 decimal places inside the decoder. -/
def decode_kink_params (hex_str : List Char) : DecodeOutcome :=
  let s := strip0x hex_str
  if s.length < 64 * 4 then .insufficientData
  else
    match parse4 s with
    | none => .valueError
    | some (base_rate_raw, slope1_raw, slope2_raw, kink_raw) =>
      let r_kink : ℤ := (base_rate_raw : ℤ) + slope1_raw * kink_raw
      let r_100 : ℤ := r_kink + slope2_raw * ((UINT32_MAX : ℤ) - kink_raw)
      .ok ⟨round3 ((kink_raw : ℚ) / (UINT32_MAX : ℚ) * 100),
        round3 (to_apy (base_rate_raw : ℤ) * 100),
        round3 (to_apy r_kink * 100), round3 (to_apy r_100 * 100)⟩

/-! ### The vault state entity (src/src/vault.py, `Vault` dataclass) -/

/-- The numeric state of a `Vault` (src/src/vault.py lines 232-275) restricted to
the fields the rate/yield engine reads or writes: the identity key `vault`, the
on-chain numbers, the editable assumptions, the IRM dict and the nine derived
fields that `compute_derived_fields` rewrites. -/
structure Vault where
  vault : Option String
  total_assets : ℚ
  total_borrowed : ℚ
  supply_cap : ℚ
  borrow_cap : ℚ
  assumed_supply : ℚ
  assumed_borrow : ℚ
  nativeYield : ℚ
  interest_rate_model_info : IRMDict
  current_utilization : ℚ
  utilization_at_caps : ℚ
  end_utilization : ℚ
  current_borrow_apy : ℚ
  current_supply_apy : ℚ
  caps_borrow_apy : ℚ
  caps_supply_apy : ℚ
  end_borrow_apy : ℚ
  end_supply_apy : ℚ
deriving DecidableEq

/-- The all-zero vault with no identity and an empty IRM dict. -/
def Vault.zero : Vault :=
  ⟨none, 0, 0, 0, 0, 0, 0, 0, IRMDict.empty, 0, 0, 0, 0, 0, 0, 0, 0, 0⟩

/-- The `irm_scaled` dict built inside `compute_derived_fields`
(src/src/vault.py lines 302-307): every key read with default 0 and divided by
100; the fresh dict holds exactly the four keys. -/
def scaleIRM (info : IRMDict) : IRMDict :=
  ⟨some (info.kinkPercent.getD 0 / 100), some (info.baseRateApy.getD 0 / 100),
    some (info.rateAtKink.getD 0 / 100), some (info.maximumRate.getD 0 / 100), false⟩

/-- `Vault.compute_derived_fields` (src/src/vault.py lines 287-331): the three
utilizations (0 on a nonpositive denominator, rounded to 3 decimals on the 0-100
scale), then, when the IRM dict is truthy and holds `kinkPercent`, the three
borrow/supply APY pairs through `calculate_rates` at each utilization divided by
100, each APY multiplied by 100 and rounded to 3 decimals; otherwise six zeros. -/
def compute_derived_fields (v : Vault) : Vault :=
  let cu : ℚ := if v.total_assets > 0 then round3 (v.total_borrowed / v.total_assets * 100) else 0
  let uc : ℚ := if v.supply_cap > 0 then round3 (v.borrow_cap / v.supply_cap * 100) else 0
  let eu : ℚ := if v.assumed_supply > 0 then round3 (v.assumed_borrow / v.assumed_supply * 100) else 0
  let apys : ℚ × ℚ × ℚ × ℚ × ℚ × ℚ :=
    if v.interest_rate_model_info.nonempty && v.interest_rate_model_info.kinkPercent.isSome then
      let irm_scaled := scaleIRM v.interest_rate_model_info
      let cRates := calculate_rates_dict (cu / 100) irm_scaled
      let capsRates := calculate_rates_dict (uc / 100) irm_scaled
      let eRates := calculate_rates_dict (eu / 100) irm_scaled
      (round3 (cRates.1 * 100), round3 (cRates.2 * 100), round3 (capsRates.1 * 100),
        round3 (capsRates.2 * 100), round3 (eRates.1 * 100), round3 (eRates.2 * 100))
    else (0, 0, 0, 0, 0, 0)
  { v with
    current_utilization := cu, utilization_at_caps := uc, end_utilization := eu,
    current_borrow_apy := apys.1, current_supply_apy := apys.2.1,
    caps_borrow_apy := apys.2.2.1, caps_supply_apy := apys.2.2.2.1,
    end_borrow_apy := apys.2.2.2.2.1, end_supply_apy := apys.2.2.2.2.2 }

end SrcVault

namespace Main

open SrcVault

/-- One row of the assumptions editor consumed by `_sync_assumptions_to_vaults`
(src/main.py lines 87-121): the five numeric columns are read with default 0,
the four IRM columns are applied only when not NaN. -/
structure EditRow where
  supplyCap : ℚ
  borrowCap : ℚ
  assumedSupply : ℚ
  assumedBorrow : ℚ
  nativeYield : ℚ
  kinkPercent : Option ℚ
  baseRateApy : Option ℚ
  rateAtKink : Option ℚ
  maximumRate : Option ℚ
deriving DecidableEq

/-- The all-zero edit row (no IRM overrides). -/
def EditRow.zero : EditRow := ⟨0, 0, 0, 0, 0, none, none, none, none⟩

/-- The IRM-dict update of src/main.py lines 116-120: copy the vault's dict and
overwrite each of the four keys that the row provides. -/
def mergeIRM (irm : IRMDict) (row : EditRow) : IRMDict :=
  { irm with
    kinkPercent := match row.kinkPercent with | some q => some q | none => irm.kinkPercent,
    baseRateApy := match row.baseRateApy with | some q => some q | none => irm.baseRateApy,
    rateAtKink := match row.rateAtKink with | some q => some q | none => irm.rateAtKink,
    maximumRate := match row.maximumRate with | some q => some q | none => irm.maximumRate }

/-- The per-vault body of `_sync_assumptions_to_vaults` (src/main.py lines 93-121):
set the caps from the row, clamp assumed supply/borrow from above by the new caps
when those are positive (there is no lower clamp in this function), set the native
yield, merge the IRM overrides, then recompute the derived fields. -/
def sync_assumptions_row (row : EditRow) (v : Vault) : Vault :=
  let supply_cap := row.supplyCap
  let borrow_cap := row.borrowCap
  let assumed_supply :=
    if supply_cap > 0 then min row.assumedSupply supply_cap else row.assumedSupply
  let assumed_borrow :=
    if borrow_cap > 0 then min row.assumedBorrow borrow_cap else row.assumedBorrow
  compute_derived_fields
    { v with
      supply_cap := supply_cap, borrow_cap := borrow_cap,
      assumed_supply := assumed_supply, assumed_borrow := assumed_borrow,
      nativeYield := row.nativeYield,
      interest_rate_model_info := mergeIRM v.interest_rate_model_info row }

/-- Fold a sequence of assumption edits over a vault. -/
def applyEdits (edits : List EditRow) (v : Vault) : Vault :=
  edits.foldl (fun w r => sync_assumptions_row r w) v

/-- The immutable per-vault on-chain snapshot stored by `fetch_and_store_data`
(src/main.py lines 250-266). -/
structure OnChainParams where
  supply_cap : ℚ
  borrow_cap : ℚ
  irm : IRMDict
  total_assets : ℚ
  total_borrowed : ℚ
  native_yield : ℚ
  current_utilization : ℚ
  utilization_at_caps : ℚ
  current_borrow_apy : ℚ
  current_supply_apy : ℚ
  caps_borrow_apy : ℚ
  caps_supply_apy : ℚ
deriving DecidableEq

/-- Capture of the snapshot record from a vault (src/main.py lines 250-266). -/
def capture (v : Vault) : OnChainParams :=
  ⟨v.supply_cap, v.borrow_cap, v.interest_rate_model_info, v.total_assets,
    v.total_borrowed, v.nativeYield, v.current_utilization, v.utilization_at_caps,
    v.current_borrow_apy, v.current_supply_apy, v.caps_borrow_apy, v.caps_supply_apy⟩

/-- The per-vault body of the reset handler (src/main.py lines 532-542): restore
the six editable fields from the snapshot record, then recompute. -/
def resetToOnChain (p : OnChainParams) (v : Vault) : Vault :=
  compute_derived_fields
    { v with
      supply_cap := p.supply_cap, borrow_cap := p.borrow_cap,
      assumed_supply := p.total_assets, assumed_borrow := p.total_borrowed,
      nativeYield := p.native_yield, interest_rate_model_info := p.irm }

/-- The four scenario yields of one leveraged strategy as computed by
`_compute_strategies` (src/main.py lines 648-678): current, current-at-caps, end,
end-at-caps. -/
def strategy_scenario_yields (debt_oc coll_oc : OnChainParams) (debtV collV : Vault)
    (borrow_ltv liquidation_ltv : ℚ) : ℚ × ℚ × ℚ × ℚ :=
  (compute_strategy_yield coll_oc.current_supply_apy coll_oc.native_yield
      debt_oc.current_borrow_apy borrow_ltv,
    compute_strategy_yield coll_oc.caps_supply_apy coll_oc.native_yield
      debt_oc.caps_borrow_apy liquidation_ltv,
    compute_strategy_yield collV.end_supply_apy collV.nativeYield
      debtV.end_borrow_apy borrow_ltv,
    compute_strategy_yield collV.caps_supply_apy collV.nativeYield
      debtV.caps_borrow_apy liquidation_ltv)

end Main

/-! ### Strategy records -/

/-- The `Strategy` dataclass (src/src/strategy.py lines 10-16 and the identical
src/strategy.py lines 10-16), restricted to the fields the yield methods read. -/
structure Strategy where
  debtVault : SrcVault.Vault
  collateralVault : SrcVault.Vault
  borrowLTV : ℚ
  liquidationLTV : ℚ
deriving DecidableEq

namespace SrcStrategy

/-- `Strategy.calculate_current_yield` (src/src/strategy.py lines 23-28). -/
def calculate_current_yield (s : Strategy) : ℚ :=
  calculate_yield_with_LTV
    (s.collateralVault.current_supply_apy + s.collateralVault.nativeYield)
    s.debtVault.current_borrow_apy s.borrowLTV

/-- `Strategy.calculate_caps_yield` (src/src/strategy.py lines 30-35); note this
variant passes `borrowLTV`. -/
def calculate_caps_yield (s : Strategy) : ℚ :=
  calculate_yield_with_LTV
    (s.collateralVault.caps_supply_apy + s.collateralVault.nativeYield)
    s.debtVault.caps_borrow_apy s.borrowLTV

end SrcStrategy

namespace RootStrategy

/-- `Strategy.calculate_current_yield` (src/strategy.py lines 23-28). -/
def calculate_current_yield (s : Strategy) : ℚ :=
  calculate_yield_with_LTV
    (s.collateralVault.current_supply_apy + s.collateralVault.nativeYield)
    s.debtVault.current_borrow_apy s.borrowLTV

/-- `Strategy.calculate_caps_yield` (src/strategy.py lines 30-35); this variant
passes `liquidationLTV`. -/
def calculate_caps_yield (s : Strategy) : ℚ :=
  calculate_yield_with_LTV
    (s.collateralVault.caps_supply_apy + s.collateralVault.nativeYield)
    s.debtVault.caps_borrow_apy s.liquidationLTV

end RootStrategy

/-- One row of the single-sided strategy list. -/
structure SSRow where
  lendAsset : String
deriving DecidableEq

/-- `getattr(vault_obj, "vault", None) or vault_key` (src/strategy.py line 252):
the vault's own key unless it is `None` or empty. -/
def lendAssetKey (vault_key : String) (v : SrcVault.Vault) : String :=
  match v.vault with
  | none => vault_key
  | some s => if s = "" then vault_key else s

/-- `construct_single_sided_strategies` (src/strategy.py lines 241-255, identical
in src/src/strategy.py lines 270-284): one row per vault of the map whose
`borrow_cap` is positive, in iteration order. -/
def construct_single_sided_strategies : List (String × SrcVault.Vault) → List SSRow
  | [] => []
  | (k, v) :: rest =>
    if v.borrow_cap > 0 then ⟨lendAssetKey k v⟩ :: construct_single_sided_strategies rest
    else construct_single_sided_strategies rest

end Armory

namespace Armory

/-! ### Lemmas about the rate interpolator -/

/-- The clamped utilization actually used by `calculate_rates`. -/
def clampedUtil (u : ℚ) : ℚ :=
  if (if u < 0 then (0 : ℚ) else u) > 1 then 1 else if u < 0 then (0 : ℚ) else u

theorem clampedUtil_nonneg (u : ℚ) : 0 ≤ clampedUtil u := by
  unfold clampedUtil; split_ifs <;> linarith

theorem clampedUtil_le_one (u : ℚ) : clampedUtil u ≤ 1 := by
  unfold clampedUtil; split_ifs <;> linarith

theorem clampedUtil_of_nonpos {u : ℚ} (h : u ≤ 0) : clampedUtil u = 0 := by
  unfold clampedUtil
  split_ifs with h1 h2 h3 <;> linarith

theorem calculate_rates_snd (u k b rk m : ℚ) :
    (calculate_rates u k b rk m).2 = clampedUtil u * (9 / 10) * (calculate_rates u k b rk m).1 := rfl

end Armory

namespace Armory

theorem calculate_rates_at_zero (k b rk m : ℚ) (h0 : 0 ≤ k) :
    (calculate_rates 0 k b rk m).1 = b := by
  simp only [calculate_rates]
  norm_num
  split_ifs <;> intros <;> linarith

theorem calculate_rates_at_kink (k b rk m : ℚ) (h0 : 0 < k) (h1 : k ≤ 1) :
    (calculate_rates k k b rk m).1 = rk := by
  simp only [calculate_rates]
  rw [if_neg (by linarith : ¬k < 0), if_neg (by linarith : ¬k > 1),
    if_pos le_rfl, if_pos h0]
  field_simp

theorem calculate_rates_at_one (k b rk m : ℚ) (h1 : k < 1) :
    (calculate_rates 1 k b rk m).1 = m := by
  have hne : (1 : ℚ) - k ≠ 0 := by linarith
  simp only [calculate_rates]
  norm_num
  rw [if_neg (by linarith : ¬(1 : ℚ) ≤ k), if_pos h1]
  field_simp

end Armory

namespace Armory

/-! ### Claim C1 -/

/-- Claim C1 (amended): for every kink fraction in [0,1], `calculate_rates` returns a
borrow rate equal to `base` at utilization 0; equal to `rateAtKink` at utilization
`kink` provided `kink > 0` (at `kink = 0` it returns `base`); and equal to `max` at
utilization 1 provided `kink < 1` (at `kink = 1` it returns `rateAtKink`). -/
theorem C1_interpolator_reference_points (k b rk m : ℚ) (h0 : 0 ≤ k) (h1 : k ≤ 1) :
    (calculate_rates 0 k b rk m).1 = b ∧
    (0 < k → (calculate_rates k k b rk m).1 = rk) ∧
    (k < 1 → (calculate_rates 1 k b rk m).1 = m) :=
  ⟨calculate_rates_at_zero k b rk m h0,
    fun hk => calculate_rates_at_kink k b rk m hk h1,
    fun hk => calculate_rates_at_one k b rk m hk⟩

/-- Witness for C1 at the concrete parameter set (kink, base, rateAtKink, max) =
(1/2, 1, 5, 100). -/
theorem C1_interpolator_reference_points_witness :
    (0 : ℚ) ≤ 1 / 2 ∧ (1 / 2 : ℚ) ≤ 1 ∧
    (calculate_rates 0 (1 / 2) 1 5 100).1 = 1 ∧
    (calculate_rates (1 / 2) (1 / 2) 1 5 100).1 = 5 ∧
    (calculate_rates 1 (1 / 2) 1 5 100).1 = 100 :=
  ⟨by norm_num, by norm_num,
    (C1_interpolator_reference_points (1 / 2) 1 5 100 (by norm_num) (by norm_num)).1,
    (C1_interpolator_reference_points (1 / 2) 1 5 100 (by norm_num) (by norm_num)).2.1
      (by norm_num),
    (C1_interpolator_reference_points (1 / 2) 1 5 100 (by norm_num) (by norm_num)).2.2
      (by norm_num)⟩

/-- Counterexample to C1 as stated: at the admissible kink fraction 0 the borrow
rate at utilization `kink` is the base rate 0, not `rateAtKink` = 5; and at the
admissible kink fraction 1 the borrow rate at utilization 1 is `rateAtKink` = 5,
not `max` = 7. -/
theorem C1_interpolator_reference_points_counterexample :
    (calculate_rates 0 0 0 5 7).1 = 0 ∧ (0 : ℚ) ≠ 5 ∧
    (calculate_rates 1 1 0 5 7).1 = 5 ∧ (5 : ℚ) ≠ 7 := by
  refine ⟨by norm_num [calculate_rates], by norm_num, by norm_num [calculate_rates], by norm_num⟩

/-! ### Claim C4 -/

/-- Claim C4 (amended): `compute_strategy_yield` equals `(gain - cost*ltv)/(1 - ltv)`
with `gain = collateralSupplyApy + collateralNativeYield` and `cost = debtBorrowApy`
whenever `ltv ≠ 1`; gain = 10, cost = 2, ltv = 0.5 gives 18; and ltv = 0 gives
`gain` (the cost term vanishes with the zero LTV), not `gain - cost`. -/
theorem C4_compute_strategy_yield_formula :
    (∀ cs cn db ltv : ℚ, ltv ≠ 1 →
      compute_strategy_yield cs cn db ltv = ((cs + cn) - db * ltv) / (1 - ltv)) ∧
    compute_strategy_yield 10 0 2 (1 / 2) = 18 ∧
    (∀ cs cn db : ℚ, compute_strategy_yield cs cn db 0 = cs + cn) := by
  refine ⟨fun cs cn db ltv _ => rfl, ?_, fun cs cn db => ?_⟩
  · norm_num [compute_strategy_yield, calculate_yield_with_LTV]
  · norm_num [compute_strategy_yield, calculate_yield_with_LTV]

/-- Witness for C4's guarded formula at cs = 4, cn = 1, db = 2, ltv = 1/2. -/
theorem C4_compute_strategy_yield_formula_witness :
    (1 / 2 : ℚ) ≠ 1 ∧
    compute_strategy_yield 4 1 2 (1 / 2) = ((4 + 1) - 2 * (1 / 2)) / (1 - 1 / 2) :=
  ⟨by norm_num, C4_compute_strategy_yield_formula.1 4 1 2 (1 / 2) (by norm_num)⟩

/-- Counterexample to C4 as stated: with gain = 10, cost = 2 and ltv = 0 the code
yields (10 - 2*0)/(1 - 0) = 10, not gain - cost = 8. -/
theorem C4_compute_strategy_yield_formula_counterexample :
    compute_strategy_yield 10 0 2 0 = 10 ∧ (10 : ℚ) ≠ 10 - 2 := by
  refine ⟨by norm_num [compute_strategy_yield, calculate_yield_with_LTV], by norm_num⟩

/-! ### Claim C10 -/

/-- Claim C10: for every utilization input (before clamping), whenever the borrow
rate returned by `calculate_rates` is nonnegative the supply rate lies between 0
and 0.9 times the borrow rate; and for every nonpositive utilization input the
supply rate is exactly 0. -/
theorem C10_supply_rate_bounds (u k b rk m : ℚ) :
    (0 ≤ (calculate_rates u k b rk m).1 →
      0 ≤ (calculate_rates u k b rk m).2 ∧
      (calculate_rates u k b rk m).2 ≤ 9 / 10 * (calculate_rates u k b rk m).1) ∧
    (u ≤ 0 → (calculate_rates u k b rk m).2 = 0) := by
  constructor
  · intro hbr
    rw [calculate_rates_snd]
    constructor
    · exact mul_nonneg (mul_nonneg (clampedUtil_nonneg u) (by norm_num)) hbr
    · calc clampedUtil u * (9 / 10) * (calculate_rates u k b rk m).1
          = clampedUtil u * (9 / 10 * (calculate_rates u k b rk m).1) := by ring
        _ ≤ 1 * (9 / 10 * (calculate_rates u k b rk m).1) :=
          mul_le_mul_of_nonneg_right (clampedUtil_le_one u)
            (mul_nonneg (by norm_num) hbr)
        _ = 9 / 10 * (calculate_rates u k b rk m).1 := one_mul _
  · intro hu
    rw [calculate_rates_snd, clampedUtil_of_nonpos hu, zero_mul, zero_mul]

/-- Witness for C10 at u = -1 and parameters (1/2, 1, 5, 100): the borrow rate is
the base rate 1 ≥ 0 and the supply rate is 0. -/
theorem C10_supply_rate_bounds_witness :
    0 ≤ (calculate_rates (-1) (1 / 2) 1 5 100).1 ∧
    (0 ≤ (calculate_rates (-1) (1 / 2) 1 5 100).2 ∧
      (calculate_rates (-1) (1 / 2) 1 5 100).2 ≤
        9 / 10 * (calculate_rates (-1) (1 / 2) 1 5 100).1) ∧
    (-1 : ℚ) ≤ 0 ∧ (calculate_rates (-1) (1 / 2) 1 5 100).2 = 0 :=
  ⟨by norm_num [calculate_rates],
    (C10_supply_rate_bounds (-1) (1 / 2) 1 5 100).1 (by norm_num [calculate_rates]),
    by norm_num,
    (C10_supply_rate_bounds (-1) (1 / 2) 1 5 100).2 (by norm_num)⟩

end Armory

namespace Armory

/-! ### Claim C8 -/

/-- Claim C8 (amended): the dict form of the rate interpolator divides `kinkPercent`
by 100 only when it exceeds 1.  Hence for a 0-100-scale `kinkPercent` k the
interpolation uses the kink fraction k/100 when 1 < k, but uses k unchanged when
k ≤ 1; the vault's `compute_derived_fields` path instead pre-divides the whole
parameter set by 100 (`scaleIRM`), and through that path the interpolation does
use the kink fraction k/100 for every k in [0, 100]. -/
theorem C8_kink_normalization (u : ℚ) (irm : IRMDict) (k : ℚ)
    (hk : irm.kinkPercent = some k) :
    (1 < k → calculate_rates_dict u irm =
      calculate_rates u (k / 100) (irm.baseRateApy.getD 0) (irm.rateAtKink.getD 0)
        (irm.maximumRate.getD 0)) ∧
    (k ≤ 1 → calculate_rates_dict u irm =
      calculate_rates u k (irm.baseRateApy.getD 0) (irm.rateAtKink.getD 0)
        (irm.maximumRate.getD 0)) ∧
    (0 ≤ k → k ≤ 100 → calculate_rates_dict u (SrcVault.scaleIRM irm) =
      calculate_rates u (k / 100) (irm.baseRateApy.getD 0 / 100)
        (irm.rateAtKink.getD 0 / 100) (irm.maximumRate.getD 0 / 100)) := by
  refine ⟨fun h1 => ?_, fun h1 => ?_, fun h0 h100 => ?_⟩
  · simp only [calculate_rates_dict, hk, Option.getD_some, if_pos h1]
  · simp only [calculate_rates_dict, hk, Option.getD_some, if_neg (not_lt.mpr h1)]
  · simp only [calculate_rates_dict, SrcVault.scaleIRM, hk, Option.getD_some]
    rw [if_neg (by linarith : ¬k / 100 > 1)]

/-- Witness for C8 at u = 1/2 and the dict (kinkPercent, base, rateAtKink, max) =
(80, 1, 5, 100). -/
theorem C8_kink_normalization_witness :
    (IRMDict.mk (some 80) (some 1) (some 5) (some 100) false).kinkPercent = some 80 ∧
    (1 : ℚ) < 80 ∧ (0 : ℚ) ≤ 80 ∧ (80 : ℚ) ≤ 100 ∧
    calculate_rates_dict (1 / 2) (IRMDict.mk (some 80) (some 1) (some 5) (some 100) false) =
      calculate_rates (1 / 2) (80 / 100) 1 5 100 ∧
    calculate_rates_dict (1 / 2)
        (SrcVault.scaleIRM (IRMDict.mk (some 80) (some 1) (some 5) (some 100) false)) =
      calculate_rates (1 / 2) (80 / 100) (1 / 100) (5 / 100) (100 / 100) :=
  ⟨rfl, by norm_num, by norm_num, by norm_num,
    (C8_kink_normalization (1 / 2) (IRMDict.mk (some 80) (some 1) (some 5) (some 100) false)
      80 rfl).1 (by norm_num),
    (C8_kink_normalization (1 / 2) (IRMDict.mk (some 80) (some 1) (some 5) (some 100) false)
      80 rfl).2.2 (by norm_num) (by norm_num)⟩

/-- Counterexample to C8 as stated: with the 0-100-scale kinkPercent k = 1 (that is,
a kink at 1% utilization) and utilization 1/2, the dict interpolator returns the
borrow rate 5 obtained with kink fraction 1, while interpolating with the kink
fraction k/100 = 1/100 returns 10. -/
theorem C8_kink_normalization_counterexample :
    (calculate_rates_dict (1 / 2) (IRMDict.mk (some 1) (some 0) (some 10) (some 10) false)).1 = 5 ∧
    (calculate_rates (1 / 2) (1 / 100) 0 10 10).1 = 10 ∧ (5 : ℚ) ≠ 10 := by
  refine ⟨?_, ?_, by norm_num⟩
  · norm_num [calculate_rates_dict, calculate_rates]
  · norm_num [calculate_rates]

end Armory

namespace Armory

/-! ### Claim C5 -/

/-- Claim C5 (amended): in `_compute_strategies` the four scenario yields use the
formula `(gain - cost*ltv)/(1 - ltv)` with `ltv = borrowLTV` for the "current" and
"end" scenarios and `ltv = liquidationLTV` for the "current-at-caps" and
"end-at-caps" scenarios, each with the scenario-matched APY fields; the root
`Strategy` methods make the same choice (`borrowLTV` for current, `liquidationLTV`
for caps); but the src-package `Strategy.calculate_caps_yield` instead uses
`borrowLTV` for its caps scenario. -/
theorem C5_scenario_ltv_choice :
    (∀ (doc coc : Main.OnChainParams) (dv cv : SrcVault.Vault) (bltv lltv : ℚ),
      Main.strategy_scenario_yields doc coc dv cv bltv lltv =
        (((coc.current_supply_apy + coc.native_yield) - doc.current_borrow_apy * bltv) /
            (1 - bltv),
          ((coc.caps_supply_apy + coc.native_yield) - doc.caps_borrow_apy * lltv) /
            (1 - lltv),
          ((cv.end_supply_apy + cv.nativeYield) - dv.end_borrow_apy * bltv) / (1 - bltv),
          ((cv.caps_supply_apy + cv.nativeYield) - dv.caps_borrow_apy * lltv) /
            (1 - lltv))) ∧
    (∀ s : Strategy, RootStrategy.calculate_current_yield s =
      ((s.collateralVault.current_supply_apy + s.collateralVault.nativeYield) -
          s.debtVault.current_borrow_apy * s.borrowLTV) / (1 - s.borrowLTV)) ∧
    (∀ s : Strategy, RootStrategy.calculate_caps_yield s =
      ((s.collateralVault.caps_supply_apy + s.collateralVault.nativeYield) -
          s.debtVault.caps_borrow_apy * s.liquidationLTV) / (1 - s.liquidationLTV)) ∧
    (∀ s : Strategy, SrcStrategy.calculate_caps_yield s =
      ((s.collateralVault.caps_supply_apy + s.collateralVault.nativeYield) -
          s.debtVault.caps_borrow_apy * s.borrowLTV) / (1 - s.borrowLTV)) :=
  ⟨fun _ _ _ _ _ _ => rfl, fun _ => rfl, fun _ => rfl, fun _ => rfl⟩

/-- Counterexample to C5 as stated: a src-package strategy with caps supply APY 10,
caps borrow APY 2, borrowLTV = 1/2 and liquidationLTV = 4/5 has caps yield 18
(computed with borrowLTV), while the liquidationLTV formula yields 42. -/
theorem C5_scenario_ltv_choice_counterexample :
    SrcStrategy.calculate_caps_yield
        ⟨{ SrcVault.Vault.zero with caps_borrow_apy := 2 },
          { SrcVault.Vault.zero with caps_supply_apy := 10 }, 1 / 2, 4 / 5⟩ = 18 ∧
    (((10 : ℚ) + 0) - 2 * (4 / 5)) / (1 - 4 / 5) = 42 ∧ (18 : ℚ) ≠ 42 := by
  refine ⟨?_, by norm_num, by norm_num⟩
  norm_num [SrcStrategy.calculate_caps_yield, calculate_yield_with_LTV, SrcVault.Vault.zero]

end Armory

namespace Armory

/-! ### Projection lemmas: `compute_derived_fields` touches only derived fields -/

open SrcVault Main

theorem compute_vault_eq (v : Vault) : (compute_derived_fields v).vault = v.vault := rfl

theorem compute_total_assets (v : Vault) :
    (compute_derived_fields v).total_assets = v.total_assets := rfl

theorem compute_total_borrowed (v : Vault) :
    (compute_derived_fields v).total_borrowed = v.total_borrowed := rfl

theorem compute_supply_cap (v : Vault) :
    (compute_derived_fields v).supply_cap = v.supply_cap := rfl

theorem compute_borrow_cap (v : Vault) :
    (compute_derived_fields v).borrow_cap = v.borrow_cap := rfl

theorem compute_assumed_supply (v : Vault) :
    (compute_derived_fields v).assumed_supply = v.assumed_supply := rfl

theorem compute_assumed_borrow (v : Vault) :
    (compute_derived_fields v).assumed_borrow = v.assumed_borrow := rfl

theorem compute_nativeYield (v : Vault) :
    (compute_derived_fields v).nativeYield = v.nativeYield := rfl

theorem compute_irm (v : Vault) :
    (compute_derived_fields v).interest_rate_model_info = v.interest_rate_model_info := rfl

/-! ### Claim C6 -/

/-- Claim C6 (amended): the assumptions sync clamps `assumedSupply` from above to
`supplyCap` (via `min`) when `supplyCap > 0`, and likewise `assumedBorrow` to
`borrowCap`; with a nonnegative input the result therefore lies in [0, cap], and
the input 1000 against supply cap 500 yields 500; but a negative input is passed
through unclamped (the sync applies no lower clamp at 0). -/
theorem C6_assumption_clamping (r : EditRow) (v : Vault) :
    ((sync_assumptions_row r v).assumed_supply =
      if r.supplyCap > 0 then min r.assumedSupply r.supplyCap else r.assumedSupply) ∧
    ((sync_assumptions_row r v).assumed_borrow =
      if r.borrowCap > 0 then min r.assumedBorrow r.borrowCap else r.assumedBorrow) ∧
    (0 < r.supplyCap → 0 ≤ r.assumedSupply →
      0 ≤ (sync_assumptions_row r v).assumed_supply ∧
      (sync_assumptions_row r v).assumed_supply ≤ (sync_assumptions_row r v).supply_cap) ∧
    (0 < r.borrowCap → 0 ≤ r.assumedBorrow →
      0 ≤ (sync_assumptions_row r v).assumed_borrow ∧
      (sync_assumptions_row r v).assumed_borrow ≤ (sync_assumptions_row r v).borrow_cap) ∧
    ((sync_assumptions_row { EditRow.zero with supplyCap := 500, assumedSupply := 1000 }
        v).assumed_supply = 500) := by
  have hs : (sync_assumptions_row r v).assumed_supply =
      if r.supplyCap > 0 then min r.assumedSupply r.supplyCap else r.assumedSupply := rfl
  have hb : (sync_assumptions_row r v).assumed_borrow =
      if r.borrowCap > 0 then min r.assumedBorrow r.borrowCap else r.assumedBorrow := rfl
  have hc : (sync_assumptions_row r v).supply_cap = r.supplyCap := rfl
  have hbc : (sync_assumptions_row r v).borrow_cap = r.borrowCap := rfl
  refine ⟨hs, hb, fun hcap hin => ?_, fun hcap hin => ?_, ?_⟩
  · rw [hs, hc, if_pos hcap]
    exact ⟨le_min hin (le_of_lt hcap), min_le_right _ _⟩
  · rw [hb, hbc, if_pos hcap]
    exact ⟨le_min hin (le_of_lt hcap), min_le_right _ _⟩
  · show (if (500 : ℚ) > 0 then min (1000 : ℚ) 500 else 1000) = 500
    norm_num

/-- The concrete edit row of the C6 witness: supply cap 500, borrow cap 300,
assumed supply 200, assumed borrow 400. -/
def rowC6 : EditRow :=
  { EditRow.zero with supplyCap := 500, borrowCap := 300, assumedSupply := 200, assumedBorrow := 400 }

/-- Witness for C6's guarded range parts at the row `rowC6`. -/
theorem C6_assumption_clamping_witness :
    0 < rowC6.supplyCap ∧ 0 ≤ rowC6.assumedSupply ∧
    0 < rowC6.borrowCap ∧ 0 ≤ rowC6.assumedBorrow ∧
    (0 ≤ (sync_assumptions_row rowC6 Vault.zero).assumed_supply ∧
      (sync_assumptions_row rowC6 Vault.zero).assumed_supply ≤
        (sync_assumptions_row rowC6 Vault.zero).supply_cap) ∧
    (0 ≤ (sync_assumptions_row rowC6 Vault.zero).assumed_borrow ∧
      (sync_assumptions_row rowC6 Vault.zero).assumed_borrow ≤
        (sync_assumptions_row rowC6 Vault.zero).borrow_cap) :=
  ⟨by norm_num [rowC6, EditRow.zero], by norm_num [rowC6, EditRow.zero],
    by norm_num [rowC6, EditRow.zero], by norm_num [rowC6, EditRow.zero],
    (C6_assumption_clamping rowC6 Vault.zero).2.2.1
      (by norm_num [rowC6, EditRow.zero]) (by norm_num [rowC6, EditRow.zero]),
    (C6_assumption_clamping rowC6 Vault.zero).2.2.2.1
      (by norm_num [rowC6, EditRow.zero]) (by norm_num [rowC6, EditRow.zero])⟩

/-- Counterexample to C6 as stated: the sync passes the negative input -1 through
although the supply cap 500 is positive, so the resulting assumedSupply is not in
[0, supplyCap]. -/
theorem C6_assumption_clamping_counterexample :
    (sync_assumptions_row { EditRow.zero with supplyCap := 500, assumedSupply := -1 }
      Vault.zero).assumed_supply = -1 ∧ ¬(0 : ℚ) ≤ -1 ∧ (0 : ℚ) < 500 := by
  refine ⟨?_, by norm_num, by norm_num⟩
  show (if (500 : ℚ) > 0 then min (-1 : ℚ) 500 else -1) = -1
  norm_num

end Armory

namespace Armory

open SrcVault Main

/-- `compute_derived_fields` is a function of the input fields alone: two vaults
agreeing on every non-derived field recompute to the same state. -/
theorem compute_eq_of_inputs {v w : Vault}
    (h1 : v.vault = w.vault) (h2 : v.total_assets = w.total_assets)
    (h3 : v.total_borrowed = w.total_borrowed) (h4 : v.supply_cap = w.supply_cap)
    (h5 : v.borrow_cap = w.borrow_cap) (h6 : v.assumed_supply = w.assumed_supply)
    (h7 : v.assumed_borrow = w.assumed_borrow) (h8 : v.nativeYield = w.nativeYield)
    (h9 : v.interest_rate_model_info = w.interest_rate_model_info) :
    compute_derived_fields v = compute_derived_fields w := by
  cases v
  cases w
  dsimp only at h1 h2 h3 h4 h5 h6 h7 h8 h9
  subst h1 h2 h3 h4 h5 h6 h7 h8 h9
  rfl

theorem sync_total_assets (r : EditRow) (v : Vault) :
    (sync_assumptions_row r v).total_assets = v.total_assets := rfl

theorem sync_total_borrowed (r : EditRow) (v : Vault) :
    (sync_assumptions_row r v).total_borrowed = v.total_borrowed := rfl

theorem sync_vault_key (r : EditRow) (v : Vault) :
    (sync_assumptions_row r v).vault = v.vault := rfl

theorem applyEdits_total_assets (es : List EditRow) (v : Vault) :
    (applyEdits es v).total_assets = v.total_assets := by
  induction es generalizing v with
  | nil => rfl
  | cons r t ih => simpa [applyEdits] using ih (sync_assumptions_row r v)

theorem applyEdits_total_borrowed (es : List EditRow) (v : Vault) :
    (applyEdits es v).total_borrowed = v.total_borrowed := by
  induction es generalizing v with
  | nil => rfl
  | cons r t ih => simpa [applyEdits] using ih (sync_assumptions_row r v)

theorem applyEdits_vault_key (es : List EditRow) (v : Vault) :
    (applyEdits es v).vault = v.vault := by
  induction es generalizing v with
  | nil => rfl
  | cons r t ih => simpa [applyEdits] using ih (sync_assumptions_row r v)

/-! ### Claim C7 -/

/-- Claim C7: for a vault in its snapshot-time state (assumed supply/borrow equal
the on-chain totals and the derived fields consistent), resetting from the captured
on-chain record after any sequence of assumption edits restores exactly the
snapshot-time state; and the reset operation is idempotent for every snapshot
record and every vault state. -/
theorem C7_reset_restores_and_idempotent (v : Vault)
    (h1 : v.assumed_supply = v.total_assets) (h2 : v.assumed_borrow = v.total_borrowed)
    (h3 : compute_derived_fields v = v) :
    (∀ edits : List EditRow, resetToOnChain (capture v) (applyEdits edits v) = v) ∧
    (∀ (p : OnChainParams) (w : Vault),
      resetToOnChain p (resetToOnChain p w) = resetToOnChain p w) := by
  constructor
  · intro edits
    unfold resetToOnChain
    refine Eq.trans ?_ h3
    refine compute_eq_of_inputs ?_ ?_ ?_ ?_ ?_ ?_ ?_ ?_ ?_
    · exact applyEdits_vault_key edits v
    · exact applyEdits_total_assets edits v
    · exact applyEdits_total_borrowed edits v
    · rfl
    · rfl
    · exact h1.symm
    · exact h2.symm
    · rfl
    · rfl
  · intro p w
    unfold resetToOnChain
    refine compute_eq_of_inputs ?_ ?_ ?_ ?_ ?_ ?_ ?_ ?_ ?_
    · exact compute_vault_eq _
    · exact compute_total_assets _
    · exact compute_total_borrowed _
    · rfl
    · rfl
    · rfl
    · rfl
    · rfl
    · rfl

end Armory

namespace Armory

/-! ### Claim C9 -/

/-- Claim C9: the single-sided strategy list is exactly the lend rows of the vaults
with positive borrow cap, in map order; in particular a vault appears if and only
if its borrowCap > 0, regardless of its supply. -/
theorem C9_single_sided_strategies (m : List (String × SrcVault.Vault)) :
    construct_single_sided_strategies m =
      (m.filter fun p => decide (p.2.borrow_cap > 0)).map
        (fun p => ⟨lendAssetKey p.1 p.2⟩) ∧
    (∀ k v, (k, v) ∈ m → v.borrow_cap > 0 →
      (⟨lendAssetKey k v⟩ : SSRow) ∈ construct_single_sided_strategies m) ∧
    (∀ k v, (k, v) ∈ m → ¬v.borrow_cap > 0 →
      ∀ q ∈ m.filter fun p => decide (p.2.borrow_cap > 0), q ≠ (k, v)) := by
  refine ⟨?_, ?_, ?_⟩
  · induction m with
    | nil => rfl
    | cons p t ih =>
      obtain ⟨k, v⟩ := p
      by_cases h : v.borrow_cap > 0 <;>
        simp [construct_single_sided_strategies, h, ih]
  · intro k v hm hpos
    induction m with
    | nil => simp at hm
    | cons p t ih =>
      rcases List.mem_cons.mp hm with h | h
      · subst h
        simp [construct_single_sided_strategies, hpos]
      · obtain ⟨k', v'⟩ := p
        by_cases h' : v'.borrow_cap > 0 <;>
          simp [construct_single_sided_strategies, h', ih h]
  · intro k v _ hneg q hq
    rintro rfl
    have := List.of_mem_filter hq
    simp at this
    exact hneg this

end Armory

namespace Armory

/-- Concrete borrowable vault for the C9 witness. -/
def vaultC9a : SrcVault.Vault := { SrcVault.Vault.zero with borrow_cap := 5 }

/-- Concrete non-borrowable vault with non-zero supply for the C9 witness. -/
def vaultC9b : SrcVault.Vault := { SrcVault.Vault.zero with total_assets := 7 }

/-- Concrete vault map for the C9 witness. -/
def mapC9 : List (String × SrcVault.Vault) := [("a", vaultC9a), ("b", vaultC9b)]

/-- Witness for C9 on the concrete two-vault map: the borrowable vault appears,
the zero-borrow-cap vault (with non-zero supply) contributes no row. -/
theorem C9_single_sided_strategies_witness :
    ("a", vaultC9a) ∈ mapC9 ∧ vaultC9a.borrow_cap > 0 ∧
    (⟨lendAssetKey "a" vaultC9a⟩ : SSRow) ∈ construct_single_sided_strategies mapC9 ∧
    ("b", vaultC9b) ∈ mapC9 ∧ ¬vaultC9b.borrow_cap > 0 ∧
    (∀ q ∈ mapC9.filter fun p => decide (p.2.borrow_cap > 0), q ≠ ("b", vaultC9b)) :=
  ⟨by simp [mapC9], by norm_num [vaultC9a, SrcVault.Vault.zero],
    (C9_single_sided_strategies mapC9).2.1 "a" vaultC9a (by simp [mapC9])
      (by norm_num [vaultC9a, SrcVault.Vault.zero]),
    by simp [mapC9], by norm_num [vaultC9b, SrcVault.Vault.zero],
    (C9_single_sided_strategies mapC9).2.2 "b" vaultC9b (by simp [mapC9])
      (by norm_num [vaultC9b, SrcVault.Vault.zero])⟩

end Armory

namespace Armory

/-! ### Hex round-trip lemmas -/

theorem hexDigitVal_natToHexChar : ∀ d : ℕ, d < 16 →
    hexDigitVal (natToHexChar d) = some d := by decide

theorem encodeHexLen_length (l : ℕ) : ∀ n : ℕ, (encodeHexLen l n).length = l := by
  induction l with
  | zero => intro n; rfl
  | succ l ih => intro n; simp [encodeHexLen, ih]

theorem mem_encodeHexLen_isSome (l : ℕ) :
    ∀ n : ℕ, ∀ c ∈ encodeHexLen l n, (hexDigitVal c).isSome := by
  induction l with
  | zero => intro n c hc; simp [encodeHexLen] at hc
  | succ l ih =>
    intro n c hc
    rw [encodeHexLen] at hc
    rcases List.mem_append.mp hc with h | h
    · exact ih (n / 16) c h
    · have : c = natToHexChar (n % 16) := by simpa using h
      subst this
      rw [hexDigitVal_natToHexChar (n % 16) (Nat.mod_lt n (by norm_num))]
      rfl

theorem foldl_parseHex_encodeHexLen (l : ℕ) :
    ∀ n a : ℕ, (encodeHexLen l n).foldl parseHexAux (some a) = some (a * 16 ^ l + n % 16 ^ l) := by
  induction l with
  | zero => intro n a; simp [encodeHexLen, Nat.mod_one]
  | succ l ih =>
    intro n a
    rw [encodeHexLen, List.foldl_append, ih (n / 16) a]
    have hd := hexDigitVal_natToHexChar (n % 16) (Nat.mod_lt n (by norm_num))
    simp only [List.foldl_cons, List.foldl_nil, parseHexAux, hd]
    have hm : n % 16 ^ (l + 1) = n % 16 + 16 * (n / 16 % 16 ^ l) := by
      rw [pow_succ']
      exact Nat.mod_mul
    rw [hm, pow_succ]
    ring_nf

theorem hexChunkNat_encodeHex64 {n : ℕ} (h : n < 16 ^ 64) :
    hexChunkNat (encodeHex64 n) = some n := by
  have hlen := encodeHexLen_length 64 n
  rw [hexChunkNat, encodeHex64, if_neg, foldl_parseHex_encodeHexLen 64 n 0,
    Nat.zero_mul, Nat.zero_add, Nat.mod_eq_of_lt h]
  intro hcon
  rw [List.isEmpty_iff] at hcon
  rw [hcon] at hlen
  simp at hlen

end Armory

namespace Armory

theorem mem_encode4_isSome {b s1 s2 k : ℕ} {c : Char} (hc : c ∈ encode4 b s1 s2 k) :
    (hexDigitVal c).isSome := by
  rw [encode4] at hc
  simp only [encodeHex64, List.mem_append] at hc
  rcases hc with h | h | h | h <;> exact mem_encodeHexLen_isSome 64 _ c h

theorem strip0x_encode4 (b s1 s2 k : ℕ) :
    strip0x (encode4 b s1 s2 k) = encode4 b s1 s2 k := by
  rw [strip0x, if_neg]
  intro hcon
  have hx : 'x' ∈ (encode4 b s1 s2 k).take 2 := by rw [hcon]; simp
  have := mem_encode4_isSome (List.take_subset 2 _ hx)
  simp [hexDigitVal] at this

theorem encode4_length (b s1 s2 k : ℕ) : (encode4 b s1 s2 k).length = 256 := by
  simp [encode4, encodeHex64, encodeHexLen_length]

theorem parse4_encode4 {b s1 s2 k : ℕ} (hb : b < 16 ^ 64) (hs1 : s1 < 16 ^ 64)
    (hs2 : s2 < 16 ^ 64) (hk : k < 16 ^ 64) :
    parse4 (encode4 b s1 s2 k) = some (b, s1, s2, k) := by
  have l1 : (encodeHex64 b).length = 64 := encodeHexLen_length 64 b
  have l2 : (encodeHex64 s1).length = 64 := encodeHexLen_length 64 s1
  have l3 : (encodeHex64 s2).length = 64 := encodeHexLen_length 64 s2
  have l4 : (encodeHex64 k).length = 64 := encodeHexLen_length 64 k
  have c0 : chunk (encode4 b s1 s2 k) 0 = encodeHex64 b := by
    rw [chunk, encode4, Nat.zero_mul, List.drop_zero, List.take_left' l1]
  have c1 : chunk (encode4 b s1 s2 k) 1 = encodeHex64 s1 := by
    rw [chunk, encode4]
    rw [show 1 * 64 = 64 from rfl, List.drop_left' l1, List.take_left' l2]
  have c2 : chunk (encode4 b s1 s2 k) 2 = encodeHex64 s2 := by
    rw [chunk, encode4, ← List.append_assoc]
    have h12 : (encodeHex64 b ++ encodeHex64 s1).length = 2 * 64 := by
      simp [l1, l2]
    rw [List.drop_left' h12, List.take_left' l3]
  have c3 : chunk (encode4 b s1 s2 k) 3 = encodeHex64 k := by
    rw [chunk, encode4, ← List.append_assoc, ← List.append_assoc]
    have h123 : (encodeHex64 b ++ encodeHex64 s1 ++ encodeHex64 s2).length = 3 * 64 := by
      simp [l1, l2, l3]
    rw [List.drop_left' h123, ← l4]
    exact List.take_length _
  rw [parse4, c0, c1, c2, c3, hexChunkNat_encodeHex64 hb, hexChunkNat_encodeHex64 hs1,
    hexChunkNat_encodeHex64 hs2, hexChunkNat_encodeHex64 hk]

end Armory

namespace Armory

/-- Evaluation of both decoders on a synthetic payload built from four raw words
below 2^256. -/
theorem decode_encode4_spec {b s1 s2 k : ℕ} (hb : b < 16 ^ 64) (hs1 : s1 < 16 ^ 64)
    (hs2 : s2 < 16 ^ 64) (hk : k < 16 ^ 64) :
    RootUtils.decode_kink_params (encode4 b s1 s2 k) =
      .ok ⟨(k : ℚ) / (UINT32_MAX : ℚ), to_apy (b : ℤ), to_apy ((b : ℤ) + s1 * k),
        to_apy ((b : ℤ) + s1 * k + s2 * ((UINT32_MAX : ℤ) - k))⟩ ∧
    SrcVault.decode_kink_params (encode4 b s1 s2 k) =
      .ok ⟨round3 ((k : ℚ) / (UINT32_MAX : ℚ) * 100), round3 (to_apy (b : ℤ) * 100),
        round3 (to_apy ((b : ℤ) + s1 * k) * 100),
        round3 (to_apy ((b : ℤ) + s1 * k + s2 * ((UINT32_MAX : ℤ) - k)) * 100)⟩ := by
  have hlen : ¬(strip0x (encode4 b s1 s2 k)).length < 64 * 4 := by
    rw [strip0x_encode4, encode4_length]
    norm_num
  have hp : parse4 (strip0x (encode4 b s1 s2 k)) = some (b, s1, s2, k) := by
    rw [strip0x_encode4]
    exact parse4_encode4 hb hs1 hs2 hk
  constructor
  · rw [RootUtils.decode_kink_params]
    simp only [hlen, if_false, hp]
  · rw [SrcVault.decode_kink_params]
    simp only [hlen, if_false, hp]

end Armory

namespace Armory

/-! ### Claim C2 -/

/-- Claim C2 (amended): decoding a synthetic 4x64-hex-character payload built from
raw words below 2^256 reproduces the raw parameters as follows.  The root decoder
(src/utils.py) returns full precision but on the fraction scale: `kinkPercent` is
the fraction `kinkRaw/(2^32-1)` (not multiplied by 100) and `baseRateApy` is
`apy(baseRateRaw)` (not multiplied by 100), where `apy(r) = (1 + r/10^27)^31536000
- 1` with `apy(0) = 0` exactly.  The src-package decoder (src/src/vault.py)
returns the 0-100 percent scale but applies the 3-decimal rounding inside the
decoder itself: `kinkPercent = round3(kinkRaw/(2^32-1)*100)` and `baseRateApy =
round3(apy(baseRateRaw)*100)`, so rounding is not left to the caller. -/
theorem C2_decoder_round_trip {b s1 s2 k : ℕ} (hb : b < 16 ^ 64) (hs1 : s1 < 16 ^ 64)
    (hs2 : s2 < 16 ^ 64) (hk : k < 16 ^ 64) :
    RootUtils.decode_kink_params (encode4 b s1 s2 k) =
      .ok ⟨(k : ℚ) / (UINT32_MAX : ℚ), to_apy (b : ℤ), to_apy ((b : ℤ) + s1 * k),
        to_apy ((b : ℤ) + s1 * k + s2 * ((UINT32_MAX : ℤ) - k))⟩ ∧
    SrcVault.decode_kink_params (encode4 b s1 s2 k) =
      .ok ⟨round3 ((k : ℚ) / (UINT32_MAX : ℚ) * 100), round3 (to_apy (b : ℤ) * 100),
        round3 (to_apy ((b : ℤ) + s1 * k) * 100),
        round3 (to_apy ((b : ℤ) + s1 * k + s2 * ((UINT32_MAX : ℤ) - k)) * 100)⟩ :=
  decode_encode4_spec hb hs1 hs2 hk

/-- Witness for C2 at the all-zero raw parameters, where both decoders return the
zero record. -/
theorem C2_decoder_round_trip_witness :
    (0 : ℕ) < 16 ^ 64 ∧
    RootUtils.decode_kink_params (encode4 0 0 0 0) = .ok ⟨0, 0, 0, 0⟩ ∧
    SrcVault.decode_kink_params (encode4 0 0 0 0) = .ok ⟨0, 0, 0, 0⟩ := by
  have h := @C2_decoder_round_trip 0 0 0 0
    (by norm_num) (by norm_num) (by norm_num) (by norm_num)
  have hapy : to_apy ((0 : ℕ) : ℤ) = 0 := by norm_num [to_apy]
  have hr3 : round3 0 = 0 := by norm_num [round3, roundHalfEven]
  refine ⟨by norm_num, ?_, ?_⟩
  · rw [h.1]
    norm_num [hapy, to_apy]
  · rw [h.2]
    norm_num [to_apy, hr3]

/-- Counterexample to C2 as stated: for the root decoder with kinkRaw = 2^32 - 1
the decoded kinkPercent is the fraction 1, not kinkRaw/(2^32-1)*100 = 100; and for
the src-package decoder with kinkRaw = 1 the decoded kinkPercent is the rounded
value 0, not the exact kinkRaw/(2^32-1)*100. -/
theorem C2_decoder_round_trip_counterexample :
    RootUtils.decode_kink_params (encode4 0 0 0 UINT32_MAX) = .ok ⟨1, 0, 0, 0⟩ ∧
    (1 : ℚ) ≠ (UINT32_MAX : ℚ) / (UINT32_MAX : ℚ) * 100 ∧
    SrcVault.decode_kink_params (encode4 0 0 0 1) = .ok ⟨0, 0, 0, 0⟩ ∧
    (0 : ℚ) ≠ (1 : ℚ) / (UINT32_MAX : ℚ) * 100 := by
  have h1 := (@decode_encode4_spec 0 0 0 UINT32_MAX
    (by norm_num) (by norm_num) (by norm_num) (by norm_num [UINT32_MAX])).1
  have h2 := (@decode_encode4_spec 0 0 0 1
    (by norm_num) (by norm_num) (by norm_num) (by norm_num)).2
  refine ⟨?_, ?_, ?_, ?_⟩
  · rw [h1]
    norm_num [to_apy, UINT32_MAX]
  · norm_num [UINT32_MAX]
  · rw [h2]
    norm_num [to_apy, round3, roundHalfEven, UINT32_MAX]
  · norm_num [UINT32_MAX]

end Armory

namespace Armory

theorem foldl_parseHex_isSome (l : List Char) :
    ∀ a : ℕ, (∀ c ∈ l, (hexDigitVal c).isSome) →
      ∃ m, l.foldl parseHexAux (some a) = some m := by
  induction l with
  | nil => intro a _; exact ⟨a, rfl⟩
  | cons c t ih =>
    intro a hall
    obtain ⟨d, hd⟩ := Option.isSome_iff_exists.mp (hall c (List.mem_cons_self c t))
    rw [List.foldl_cons]
    have hstep : parseHexAux (some a) c = some (16 * a + d) := by
      simp [parseHexAux, hd]
    rw [hstep]
    exact ih (16 * a + d) fun x hx => hall x (List.mem_cons_of_mem c hx)

theorem hexChunkNat_isSome {l : List Char} (hne : l ≠ [])
    (hall : ∀ c ∈ l, (hexDigitVal c).isSome) : ∃ m, hexChunkNat l = some m := by
  rw [hexChunkNat, if_neg (by simpa [List.isEmpty_iff] using hne)]
  exact foldl_parseHex_isSome l 0 hall

theorem chunk_ne_nil {s : List Char} (i : ℕ) (hi : i ≤ 3) (hlen : 256 ≤ s.length) :
    chunk s i ≠ [] := by
  have h1 : (chunk s i).length = min 64 (s.length - i * 64) := by
    simp [chunk]
  have h2 : 64 ≤ s.length - i * 64 := by omega
  intro hcon
  rw [hcon] at h1
  simp at h1
  omega

theorem chunk_mem_subset {s : List Char} {i : ℕ} {c : Char} (hc : c ∈ chunk s i) :
    c ∈ s :=
  List.drop_subset (i * 64) s (List.take_subset 64 _ hc)

theorem parse4_isSome {s : List Char} (hlen : 256 ≤ s.length)
    (hall : ∀ c ∈ s, (hexDigitVal c).isSome) :
    ∃ a b c d, parse4 s = some (a, b, c, d) := by
  obtain ⟨m0, h0⟩ := hexChunkNat_isSome (chunk_ne_nil 0 (by norm_num) hlen)
    fun c hc => hall c (chunk_mem_subset hc)
  obtain ⟨m1, h1⟩ := hexChunkNat_isSome (chunk_ne_nil 1 (by norm_num) hlen)
    fun c hc => hall c (chunk_mem_subset hc)
  obtain ⟨m2, h2⟩ := hexChunkNat_isSome (chunk_ne_nil 2 (by norm_num) hlen)
    fun c hc => hall c (chunk_mem_subset hc)
  obtain ⟨m3, h3⟩ := hexChunkNat_isSome (chunk_ne_nil 3 (by norm_num) hlen)
    fun c hc => hall c (chunk_mem_subset hc)
  exact ⟨m0, m1, m2, m3, by rw [parse4, h0, h1, h2, h3]⟩

end Armory

namespace Armory

/-! ### Claim C3 -/

/-- Claim C3 (amended): both decoders return the insufficient-data error value
(never an exception) exactly when fewer than 256 hex characters (64*4, i.e. four
32-byte words) remain after stripping an optional 0x prefix — not 128.  A payload
with at least 256 remaining characters never yields the insufficient-data error,
but it need not decode: a non-hex-digit character among the four chunks raises a
`ValueError`, and an all-hex payload whose rate words are large enough makes the
float power inside `to_apy` raise an `OverflowError` (a crash path the ℚ embedding
does not model, so no blanket no-crash statement is made here); payloads whose
base-rate and slope words are all zero short-circuit every `to_apy` call at rate 0
before the power and genuinely decode successfully, for every kink word. -/
theorem C3_insufficient_data (s : List Char) :
    (RootUtils.decode_kink_params s = .insufficientData ↔ (strip0x s).length < 256) ∧
    (SrcVault.decode_kink_params s = .insufficientData ↔ (strip0x s).length < 256) ∧
    (256 ≤ (strip0x s).length →
      RootUtils.decode_kink_params s ≠ .insufficientData ∧
      SrcVault.decode_kink_params s ≠ .insufficientData) ∧
    (∀ k : ℕ, k < 16 ^ 64 →
      (∃ r, RootUtils.decode_kink_params (encode4 0 0 0 k) = .ok r) ∧
      (∃ r, SrcVault.decode_kink_params (encode4 0 0 0 k) = .ok r)) := by
  have hA : RootUtils.decode_kink_params s = .insufficientData ↔
      (strip0x s).length < 256 := by
    rw [RootUtils.decode_kink_params]
    by_cases h : (strip0x s).length < 64 * 4
    · simp only [if_pos h]
      constructor
      · intro _; omega
      · intro _; trivial
    · simp only [if_neg h]
      constructor
      · intro hcon
        cases hp : parse4 (strip0x s) with
        | none => rw [hp] at hcon; exact absurd hcon (by simp)
        | some t => obtain ⟨a, b, c, d⟩ := t; rw [hp] at hcon; exact absurd hcon (by simp)
      · intro hcon; omega
  have hB : SrcVault.decode_kink_params s = .insufficientData ↔
      (strip0x s).length < 256 := by
    rw [SrcVault.decode_kink_params]
    by_cases h : (strip0x s).length < 64 * 4
    · simp only [if_pos h]
      constructor
      · intro _; omega
      · intro _; trivial
    · simp only [if_neg h]
      constructor
      · intro hcon
        cases hp : parse4 (strip0x s) with
        | none => rw [hp] at hcon; exact absurd hcon (by simp)
        | some t => obtain ⟨a, b, c, d⟩ := t; rw [hp] at hcon; exact absurd hcon (by simp)
      · intro hcon; omega
  refine ⟨hA, hB, fun hlen => ?_, fun k hk => ?_⟩
  · exact ⟨fun hcon => absurd (hA.mp hcon) (by omega),
      fun hcon => absurd (hB.mp hcon) (by omega)⟩
  · have h := @decode_encode4_spec 0 0 0 k (by norm_num) (by norm_num) (by norm_num) hk
    exact ⟨⟨_, h.1⟩, ⟨_, h.2⟩⟩

set_option maxRecDepth 8192 in
/-- Witness for C3: the 256-character all-zero payload is long enough and yields no
insufficient-data error from either decoder, and the zero-rate payload with kink
word 1 decodes successfully in both decoders. -/
theorem C3_insufficient_data_witness :
    256 ≤ (strip0x (List.replicate 256 '0')).length ∧
    (RootUtils.decode_kink_params (List.replicate 256 '0') ≠ .insufficientData ∧
      SrcVault.decode_kink_params (List.replicate 256 '0') ≠ .insufficientData) ∧
    (1 : ℕ) < 16 ^ 64 ∧
    (∃ r, RootUtils.decode_kink_params (encode4 0 0 0 1) = .ok r) ∧
    (∃ r, SrcVault.decode_kink_params (encode4 0 0 0 1) = .ok r) :=
  ⟨by decide,
    (C3_insufficient_data (List.replicate 256 '0')).2.2.1 (by decide),
    by norm_num,
    ((C3_insufficient_data (List.replicate 256 '0')).2.2.2 1 (by norm_num)).1,
    ((C3_insufficient_data (List.replicate 256 '0')).2.2.2 1 (by norm_num)).2⟩

set_option maxRecDepth 8192 in
/-- Counterexample to C3 as stated: a payload of 128 hex characters (at least 128
characters remain, so the claim says the error must not occur) nevertheless yields
the insufficient-data error, because the code's threshold is 256 = 64*4; and a
256-character payload of non-hex characters crashes with a `ValueError` instead of
returning the error value or a record. -/
theorem C3_insufficient_data_counterexample :
    RootUtils.decode_kink_params (List.replicate 128 '0') = .insufficientData ∧
    128 ≤ (strip0x (List.replicate 128 '0')).length ∧
    RootUtils.decode_kink_params (List.replicate 256 'z') = .valueError := by
  refine ⟨by decide, by decide, by decide⟩

end Armory

namespace Armory

open SrcVault Main

/-- The all-zero vault is already in recomputed form. -/
theorem compute_zero_fixed : compute_derived_fields Vault.zero = Vault.zero := by
  simp [compute_derived_fields, Vault.zero, IRMDict.nonempty, IRMDict.empty]

/-- Witness for C7 at the all-zero snapshot vault and a one-edit sequence. -/
theorem C7_reset_restores_and_idempotent_witness :
    Vault.zero.assumed_supply = Vault.zero.total_assets ∧
    Vault.zero.assumed_borrow = Vault.zero.total_borrowed ∧
    compute_derived_fields Vault.zero = Vault.zero ∧
    resetToOnChain (capture Vault.zero)
      (applyEdits [{ EditRow.zero with supplyCap := 700, assumedSupply := 900 }] Vault.zero) =
      Vault.zero ∧
    resetToOnChain (capture Vault.zero) (resetToOnChain (capture Vault.zero) Vault.zero) =
      resetToOnChain (capture Vault.zero) Vault.zero :=
  ⟨rfl, rfl, compute_zero_fixed,
    (C7_reset_restores_and_idempotent Vault.zero rfl rfl compute_zero_fixed).1
      [{ EditRow.zero with supplyCap := 700, assumedSupply := 900 }],
    (C7_reset_restores_and_idempotent Vault.zero rfl rfl compute_zero_fixed).2
      (capture Vault.zero) Vault.zero⟩

end Armory
